import Mathlib

/-!
Verification of the client-side request/response lifecycle of the
trust-growth-frontend page (`src/app/page.tsx`).

The page is a single React component.  We embed:
  * the component state (`files`, `ticker`, `loading`, `result`, `error`);
  * `handleSubmit`, split at its single suspension point (the `fetch`)
    into `submitBegin` (precondition check, state reset, request build)
    and `submitResume` (response classification and settlement);
  * `handleExportJson` and the JSX rendering of a result;
  * the relevant platform semantics: JSON values, JS truthiness and
    string coercion, `JSON.stringify`, and the fetch `Response` body
    stream, which may be consumed at most once (`res.text()` after a
    settled `res.json()` rejects with a TypeError).

Engine-dependent exception messages (the `SyntaxError` from a failed
JSON parse, the `TypeError` from re-reading a consumed body) are
parameters of the model (`Platform`).
-/

namespace TrustGrowth

/-- A binary file handle as delivered by the platform file picker.
Only its identity matters to the page; the name is shown in the list. -/
structure UserFile where
  name : String
deriving Repr, DecidableEq

/-- The closed set of company identifiers offered by the `<select>`. -/
inductive Ticker where
  | VOLVB
  | HMB
deriving Repr, DecidableEq

/-- The string value of a ticker, as used for the `ticker` form field
(the `<option value>` attributes). -/
def Ticker.toStr : Ticker → String
  | .VOLVB => "VOLV-B"
  | .HMB => "HM-B"

/-- JSON values, as produced by `JSON.parse` / consumed by
`JSON.stringify`.  Scores travel as numbers; the page only ever
receives integers (spec: integer 0-100), so numbers are `Int`. -/
inductive Json where
  | null
  | bool (b : Bool)
  | num (n : Int)
  | str (s : String)
  | arr (xs : List Json)
  | obj (fields : List (String × Json))

/-- JS truthiness of a JSON value (`errJson.error || ...`). -/
def truthy : Json → Bool
  | .null => false
  | .bool b => b
  | .num n => n != 0
  | .str s => s != ""
  | .arr _ => true
  | .obj _ => true

mutual
/-- JS `String(x)` coercion, as applied by `new Error(errMsg)` when
`errMsg` is not a string. -/
def jsToString : Json → String
  | .null => "null"
  | .bool true => "true"
  | .bool false => "false"
  | .num n => toString n
  | .str s => s
  | .arr xs => String.intercalate "," (jsToStringList xs)
  | .obj _ => "[object Object]"

def jsToStringList : List Json → List String
  | [] => []
  | x :: xs => jsToString x :: jsToStringList xs
end

/-- Escape one character for a JSON string literal. -/
def jsonEscapeChar : Char → String
  | '"' => "\\\""
  | '\\' => "\\\\"
  | '\n' => "\\n"
  | '\t' => "\\t"
  | '\r' => "\\r"
  | c => String.singleton c

/-- Escape a string for inclusion in JSON output. -/
def jsonEscape (s : String) : String :=
  s.foldl (fun acc c => acc ++ jsonEscapeChar c) ""

mutual
/-- Compact `JSON.stringify`, used for the error fallback
`JSON.stringify(errJson)`. -/
def stringify : Json → String
  | .null => "null"
  | .bool true => "true"
  | .bool false => "false"
  | .num n => toString n
  | .str s => "\"" ++ jsonEscape s ++ "\""
  | .arr xs => "[" ++ String.intercalate "," (stringifyList xs) ++ "]"
  | .obj fs => "\x7b" ++ String.intercalate "," (stringifyFields fs) ++ "\x7d"

def stringifyList : List Json → List String
  | [] => []
  | x :: xs => stringify x :: stringifyList xs

def stringifyFields : List (String × Json) → List String
  | [] => []
  | (k, v) :: fs =>
      ("\"" ++ jsonEscape k ++ "\":" ++ stringify v) :: stringifyFields fs
end

/-- Property lookup on a parsed JSON object (`errJson.error`): first
matching key; `JSON.parse` keeps at most one binding per key. -/
def lookupField : List (String × Json) → String → Option Json
  | [], _ => none
  | (k, v) :: fs, key => if k = key then some v else lookupField fs key

/-- The typed shape of a successful analysis payload, field for field
the `AnalysisResult` type of the page. -/
structure AnalysisResult where
  ticker : String
  trustScore : Int
  trustJustification : String
  trustRecommendations : List String
  growthScore : Int
  growthJustification : String
  growthRecommendations : List String
  summary : String
  runId : String
deriving Repr, DecidableEq

/-- Serialize an `AnalysisResult` to its JSON value, keys in the
declaration (= JS insertion) order.  `JSON.stringify(result, null, 2)`
writes exactly this value, indented. -/
def AnalysisResult.toJson (r : AnalysisResult) : Json :=
  .obj [ ("ticker", .str r.ticker)
       , ("trustScore", .num r.trustScore)
       , ("trustJustification", .str r.trustJustification)
       , ("trustRecommendations", .arr (r.trustRecommendations.map .str))
       , ("growthScore", .num r.growthScore)
       , ("growthJustification", .str r.growthJustification)
       , ("growthRecommendations", .arr (r.growthRecommendations.map .str))
       , ("summary", .str r.summary)
       , ("runId", .str r.runId) ]

/-- Read back a list of strings from a JSON array. -/
def strListAux : List Json → Option (List String)
  | [] => some []
  | .str s :: xs => (strListAux xs).map (fun l => s :: l)
  | _ => none

def asStr : Json → Option String
  | .str s => some s
  | _ => none

def asNum : Json → Option Int
  | .num n => some n
  | _ => none

def asStrList : Json → Option (List String)
  | .arr xs => strListAux xs
  | _ => none

/-- Interpret a parsed JSON value as an `AnalysisResult` (re-parsing an
exported file): every field must be present with its typed value. -/
def AnalysisResult.fromJson : Json → Option AnalysisResult
  | .obj fs => do
      let t ← lookupField fs "ticker" >>= asStr
      let ts ← lookupField fs "trustScore" >>= asNum
      let tj ← lookupField fs "trustJustification" >>= asStr
      let tr ← lookupField fs "trustRecommendations" >>= asStrList
      let gs ← lookupField fs "growthScore" >>= asNum
      let gj ← lookupField fs "growthJustification" >>= asStr
      let gr ← lookupField fs "growthRecommendations" >>= asStrList
      let sm ← lookupField fs "summary" >>= asStr
      let rid ← lookupField fs "runId" >>= asStr
      pure ⟨t, ts, tj, tr, gs, gj, gr, sm, rid⟩
  | _ => none

/-- A value appended to the multipart `FormData`. -/
inductive FormValue where
  | str (s : String)
  | file (f : UserFile)
deriving Repr, DecidableEq

/-- The single network request `handleSubmit` may issue. -/
structure AnalyzeRequest where
  url : String
  method : String
  parts : List (String × FormValue)
deriving Repr, DecidableEq

/-- The fixed endpoint of the external analysis service. -/
def analyzeEndpoint : String := "http://localhost:4000/api/analyze"

/-- The local validation message for an empty file selection. -/
def noFilesMessage : String := "Please select at least one PDF file."

/-- The component state: the five `useState` hooks of `HomePage`.
`result` holds the raw parsed JSON (`res.json()` is merely cast, never
validated, before `setResult`). -/
structure PageState where
  files : Option (List UserFile)
  ticker : Ticker
  loading : Bool
  result : Option Json
  error : Option String

/-- The initial state of the five hooks. -/
def initState : PageState :=
  { files := none, ticker := .VOLVB, loading := false
  , result := none, error := none }

/-- `handleFileChange`: replaces the attached files wholesale with what
the picker delivered. -/
def handleFileChange (s : PageState) (fs : Option (List UserFile)) : PageState :=
  { s with files := fs }

/-- The `<select>` onChange: replaces the ticker. -/
def selectTicker (s : PageState) (t : Ticker) : PageState :=
  { s with ticker := t }

/-- Engine-dependent exception messages of the platform. -/
structure Platform where
  /-- Message of the `SyntaxError` rejecting `res.json()` when the body
  is not valid JSON. -/
  syntaxErrorMsg : String
  /-- Message of the `TypeError` rejecting `res.text()` (or a second
  `res.json()`) once the body stream has already been consumed. -/
  bodyUsedMsg : String

/-- The body of a received HTTP response, classified by whether its
text parses as JSON.  `textBody t` is a body whose raw text `t` is not
valid JSON (in particular `textBody ""` is the empty body). -/
inductive ResponseBody where
  | jsonBody (v : Json)
  | textBody (t : String)

/-- The outcome of the single `fetch`: either the call rejects before
any response (network unreachable, aborted), carrying the exception's
message (possibly empty), or a response with a status and a body
arrives. -/
inductive FetchOutcome where
  | networkThrow (msg : String)
  | response (status : Nat) (body : ResponseBody)

/-- What `handleSubmit` has done by its suspension point: either it
returned early (no request issued) or it issued exactly one request
from the updated state. -/
inductive SubmitPhase where
  | rejected (s : PageState)
  | issued (s : PageState) (req : AnalyzeRequest)

/-- First half of `handleSubmit`, up to the `fetch`:
the `!files || files.length === 0` precondition (set the validation
error and return — note the previous result is not cleared), else
`setLoading(true); setError(null); setResult(null)`, build the
`FormData` (`ticker` first, then each file under `files`, in order)
and issue the POST. -/
def submitBegin (s : PageState) : SubmitPhase :=
  match s.files with
  | none => .rejected { s with error := some noFilesMessage }
  | some fs =>
      if fs.length = 0 then
        .rejected { s with error := some noFilesMessage }
      else
        .issued { s with loading := true, error := none, result := none }
          { url := analyzeEndpoint
          , method := "POST"
          , parts := ("ticker", FormValue.str s.ticker.toStr)
                       :: fs.map (fun f => ("files", FormValue.file f)) }

/-- Classification of a received response, the body of the `try`:
* `res.ok` (2xx) and the body parses: the parsed value is the result;
  if the body does not parse, `res.json()` rejects with a SyntaxError
  whose message reaches the outer catch.
* non-2xx with a JSON body: `errMsg = errJson.error || JSON.stringify(errJson)`
  (a `null` body value makes `errJson.error` itself throw, after which
  `res.text()` finds the body consumed), then `throw new Error(errMsg)`.
* non-2xx with a non-JSON body: `res.json()` rejects after consuming
  the body stream, so the `res.text()` in the catch rejects with the
  body-already-used TypeError, which propagates to the outer catch —
  the raw text and the prepared `HTTP <status>` default are both lost. -/
def classifyResponse (p : Platform) (status : Nat) (body : ResponseBody) :
    Except String Json :=
  if 200 ≤ status ∧ status < 300 then
    match body with
    | .jsonBody v => .ok v
    | .textBody _ => .error p.syntaxErrorMsg
  else
    match body with
    | .jsonBody .null => .error p.bodyUsedMsg
    | .jsonBody (.obj fs) =>
        match lookupField fs "error" with
        | some fv =>
            if truthy fv then .error (jsToString fv)
            else .error (stringify (.obj fs))
        | none => .error (stringify (.obj fs))
    | .jsonBody v => .error (stringify v)
    | .textBody _ => .error p.bodyUsedMsg

/-- `e.message || 'Unknown error'`. -/
def orUnknown (msg : String) : String :=
  if msg = "" then "Unknown error" else msg

/-- Second half of `handleSubmit`, from the suspension point to the
`finally`: apply the fetch outcome to the in-flight state `s`, then
`setLoading(false)` on every path. -/
def submitResume (p : Platform) (s : PageState) (o : FetchOutcome) : PageState :=
  let settled :=
    match o with
    | .networkThrow msg => { s with error := some (orUnknown msg) }
    | .response status body =>
        match classifyResponse p status body with
        | .ok v => { s with result := some v }
        | .error m => { s with error := some (orUnknown m) }
  { settled with loading := false }

/-- The whole `handleSubmit` for one submission: the resulting state
and the request it issued, if any. -/
def handleSubmit (p : Platform) (s : PageState) (o : FetchOutcome) :
    PageState × Option AnalyzeRequest :=
  match submitBegin s with
  | .rejected s1 => (s1, none)
  | .issued s1 req => (submitResume p s1 o, some req)

/-- The user events that mutate the page state.  A `submit` event
carries the service outcome of the submission it triggers. -/
inductive Event where
  | fileChange (fs : Option (List UserFile))
  | pickTicker (t : Ticker)
  | submit (o : FetchOutcome)

/-- One event step of the page. -/
def step (p : Platform) (s : PageState) : Event → PageState
  | .fileChange fs => handleFileChange s fs
  | .pickTicker t => selectTicker s t
  | .submit o => (handleSubmit p s o).1

/-- Run the page from a state through a sequence of events. -/
def run (p : Platform) (s : PageState) (evs : List Event) : PageState :=
  evs.foldl (step p) s

/-- The submit button is disabled exactly while `loading` is true
(JSX: `disabled=\x7bloading\x7d`). -/
def submitDisabled (s : PageState) : Bool := s.loading

/-- The downloadable artifact produced by `handleExportJson`: the
filename set on the anchor and the JSON value its content denotes. -/
structure DownloadArtifact where
  filename : String
  content : Json

/-- `handleExportJson`: inert without a result; otherwise downloads
the result serialized as indented JSON under
`<ticker>_analysis_<runId>.json`. -/
def handleExportJson : Option AnalysisResult → Option DownloadArtifact
  | none => none
  | some r =>
      some { filename := r.ticker ++ "_analysis_" ++ r.runId ++ ".json"
           , content := r.toJson }

/-- What the result block of the JSX renders for a result. -/
structure RenderedResult where
  heading : String
  trustHeading : String
  trustJustification : String
  /-- The transparency recommendations section: its heading and items,
  present only when rendered. -/
  trustRecsSection : Option (String × List String)
  growthHeading : String
  growthJustification : String
  /-- The differentiation recommendations section. -/
  growthRecsSection : Option (String × List String)
  summary : String
  runIdLine : String

/-- The result block of the JSX (lines 141-178): headings with the
scores out of 100, the justifications, and each recommendations
section guarded by `list && list.length > 0`. -/
def renderResult (r : AnalysisResult) : RenderedResult :=
  { heading := "Results for " ++ r.ticker
  , trustHeading := "Trust (Transparency): " ++ toString r.trustScore ++ "/100"
  , trustJustification := r.trustJustification
  , trustRecsSection :=
      if r.trustRecommendations.length > 0 then
        some ("Transparency Recommendations:", r.trustRecommendations)
      else none
  , growthHeading := "Growth (Differentiation): " ++ toString r.growthScore ++ "/100"
  , growthJustification := r.growthJustification
  , growthRecsSection :=
      if r.growthRecommendations.length > 0 then
        some ("Differentiation Recommendations:", r.growthRecommendations)
      else none
  , summary := r.summary
  , runIdLine := "Run ID: " ++ r.runId }

/-- The `!files || files.length === 0` precondition. -/
def filesEmpty : Option (List UserFile) → Bool
  | none => true
  | some fs => fs.isEmpty

/-- The mutual-exclusion invariant of displayed result and error. -/
def resultErrorExclusive (s : PageState) : Prop :=
  s.error = none ∨ s.result = none

/-- Result and error can only coexist through the local validation
error: whenever both are non-null, the error is `noFilesMessage`. -/
def exclusiveUnlessValidation (s : PageState) : Prop :=
  s.error ≠ none → s.result ≠ none → s.error = some noFilesMessage

/-- A concrete platform instance for counterexample traces. -/
def cexPlatform : Platform :=
  { syntaxErrorMsg := "Unexpected end of JSON input"
  , bodyUsedMsg := "body stream already read" }

/-- A trace reaching a state where a result and an error are displayed
together: pick a file, submit successfully, let the picker replace the
selection with an empty one, submit again. -/
def cexTrace : List Event :=
  [ .fileChange (some [⟨"report.pdf"⟩])
  , .submit (.response 200 (.jsonBody (.obj [])))
  , .fileChange (some [])
  , .submit (.networkThrow "refused") ]

/-- The state the counterexample trace reaches. -/
def cexFinal : PageState :=
  run cexPlatform initState cexTrace

/-- C2: with an empty file selection (null or length zero), submit
issues no request, leaves the loading flag as it was (hence false when
it was false), and surfaces the validation message. -/
theorem submit_empty_files_no_request (p : Platform) (s : PageState)
    (o : FetchOutcome) (h : filesEmpty s.files = true) :
    (handleSubmit p s o).2 = none ∧
    (handleSubmit p s o).1.loading = s.loading ∧
    (s.loading = false → (handleSubmit p s o).1.loading = false) ∧
    (handleSubmit p s o).1.error = some noFilesMessage := by
  cases hf : s.files with
  | none =>
      refine ⟨?_, ?_, ?_, ?_⟩ <;> simp [handleSubmit, submitBegin, hf]
  | some fs =>
      cases fs with
      | nil =>
          refine ⟨?_, ?_, ?_, ?_⟩ <;> simp [handleSubmit, submitBegin, hf]
      | cons a l =>
          rw [hf] at h
          simp [filesEmpty] at h

/-- Witness for C2 at the initial state (no files picked yet). -/
theorem submit_empty_files_no_request_witness :
    (handleSubmit cexPlatform initState (.networkThrow "")).2 = none ∧
    (handleSubmit cexPlatform initState (.networkThrow "")).1.loading
      = initState.loading ∧
    (initState.loading = false →
      (handleSubmit cexPlatform initState (.networkThrow "")).1.loading
        = false) ∧
    (handleSubmit cexPlatform initState (.networkThrow "")).1.error
      = some noFilesMessage :=
  submit_empty_files_no_request cexPlatform initState (.networkThrow "") rfl

/-- C3: with a non-empty selection, submit issues exactly one POST to
the fixed endpoint whose multipart payload is the `ticker` field
followed by one `files` part per attached file, in order. -/
theorem submit_nonempty_issues_single_post (p : Platform) (s : PageState)
    (o : FetchOutcome) (fs : List UserFile)
    (hf : s.files = some fs) (hne : fs.length ≠ 0) :
    (handleSubmit p s o).2 =
      some { url := analyzeEndpoint
           , method := "POST"
           , parts := ("ticker", FormValue.str s.ticker.toStr)
                        :: fs.map (fun f => ("files", FormValue.file f)) } := by
  simp [handleSubmit, submitBegin, hf, hne]

/-- Witness for C3, once per company identifier. -/
theorem submit_nonempty_issues_single_post_witness :
    ((handleSubmit cexPlatform
        { initState with files := some [⟨"a.pdf"⟩], ticker := .VOLVB }
        (.networkThrow "")).2 =
      some { url := analyzeEndpoint
           , method := "POST"
           , parts := [ ("ticker", FormValue.str "VOLV-B")
                      , ("files", FormValue.file ⟨"a.pdf"⟩) ] }) ∧
    ((handleSubmit cexPlatform
        { initState with files := some [⟨"a.pdf"⟩], ticker := .HMB }
        (.networkThrow "")).2 =
      some { url := analyzeEndpoint
           , method := "POST"
           , parts := [ ("ticker", FormValue.str "HM-B")
                      , ("files", FormValue.file ⟨"a.pdf"⟩) ] }) :=
  ⟨submit_nonempty_issues_single_post cexPlatform
      { initState with files := some [⟨"a.pdf"⟩], ticker := .VOLVB }
      (.networkThrow "") [⟨"a.pdf"⟩] rfl (by decide)
  , submit_nonempty_issues_single_post cexPlatform
      { initState with files := some [⟨"a.pdf"⟩], ticker := .HMB }
      (.networkThrow "") [⟨"a.pdf"⟩] rfl (by decide)⟩

/-- C4: on a 500 response whose body is the non-JSON text
"server down" (or the empty body), the code never surfaces the raw
text (resp. "HTTP 500"): `res.json()` consumes the body stream before
failing, so the `res.text()` in the catch rejects with the platform's
body-already-used TypeError, whose message is what gets surfaced. -/
theorem non_json_error_body_loses_text :
    ((handleSubmit cexPlatform { initState with files := some [⟨"r.pdf"⟩] }
        (.response 500 (.textBody "server down"))).1.error =
      some "body stream already read") ∧
    ((handleSubmit cexPlatform { initState with files := some [⟨"r.pdf"⟩] }
        (.response 500 (.textBody ""))).1.error =
      some "body stream already read") :=
  ⟨rfl, rfl⟩

/-- C5: a non-2xx response whose JSON body carries a non-empty string
`error` field surfaces exactly that field's value. -/
theorem structured_error_surfaced (p : Platform) (s : PageState)
    (fs : List UserFile) (flds : List (String × Json))
    (status : Nat) (m : String)
    (hf : s.files = some fs) (hne : fs.length ≠ 0)
    (hst : ¬ (200 ≤ status ∧ status < 300))
    (he : lookupField flds "error" = some (.str m)) (hm : m ≠ "") :
    (handleSubmit p s
        (.response status (.jsonBody (.obj flds)))).1.error = some m := by
  simp [handleSubmit, submitBegin, hf, hne, submitResume, classifyResponse,
    hst, he, truthy, bne_iff_ne, hm, jsToString, orUnknown]

/-- Witness for C5: status 500 with body `{"error":"boom"}` surfaces
exactly "boom". -/
theorem structured_error_surfaced_witness :
    (handleSubmit cexPlatform { initState with files := some [⟨"r.pdf"⟩] }
        (.response 500 (.jsonBody (.obj [("error", .str "boom")])))).1.error =
      some "boom" :=
  structured_error_surfaced cexPlatform
    { initState with files := some [⟨"r.pdf"⟩] } [⟨"r.pdf"⟩]
    [("error", .str "boom")] 500 "boom"
    rfl (by decide) (by decide) rfl (by decide)

/-- C6: a transport-level failure — the fetch rejecting before any
response, or the body of a 2xx response failing to parse — surfaces
the thrown exception's message, or "Unknown error" when it is empty. -/
theorem transport_failure_fallback (p : Platform) (s : PageState)
    (fs : List UserFile) (hf : s.files = some fs) (hne : fs.length ≠ 0) :
    (∀ msg : String,
      (handleSubmit p s (.networkThrow msg)).1.error =
        some (if msg = "" then "Unknown error" else msg)) ∧
    (∀ status : Nat, 200 ≤ status → status < 300 → ∀ t : String,
      (handleSubmit p s (.response status (.textBody t))).1.error =
        some (if p.syntaxErrorMsg = "" then "Unknown error"
              else p.syntaxErrorMsg)) := by
  constructor
  · intro msg
    simp [handleSubmit, submitBegin, hf, hne, submitResume, orUnknown]
  · intro status h1 h2 t
    simp [handleSubmit, submitBegin, hf, hne, submitResume,
      classifyResponse, h1, h2, orUnknown]

/-- Witness for C6: a messageless rejection surfaces "Unknown error",
and an unparsable 2xx body surfaces the SyntaxError's message. -/
theorem transport_failure_fallback_witness :
    ((handleSubmit cexPlatform { initState with files := some [⟨"r.pdf"⟩] }
        (.networkThrow "")).1.error = some "Unknown error") ∧
    ((handleSubmit cexPlatform { initState with files := some [⟨"r.pdf"⟩] }
        (.response 200 (.textBody "<html>"))).1.error =
      some "Unexpected end of JSON input") := by
  have h := transport_failure_fallback cexPlatform
    { initState with files := some [⟨"r.pdf"⟩] } [⟨"r.pdf"⟩] rfl (by decide)
  exact ⟨by simpa using h.1 "", by simpa using h.2 200 (by decide) (by decide) "<html>"⟩

/-- C7: once the precondition passes, the state at the suspension
point has the loading flag true (submit control disabled), and every
outcome path settles with the flag false (control re-enabled). -/
theorem loading_lifecycle (p : Platform) (s : PageState) (o : FetchOutcome)
    (fs : List UserFile) (hf : s.files = some fs) (hne : fs.length ≠ 0) :
    (∃ s1 req, submitBegin s = .issued s1 req ∧
       s1.loading = true ∧ submitDisabled s1 = true) ∧
    (handleSubmit p s o).1.loading = false ∧
    submitDisabled (handleSubmit p s o).1 = false := by
  refine ⟨⟨{ s with loading := true, error := none, result := none }
          , { url := analyzeEndpoint
            , method := "POST"
            , parts := ("ticker", FormValue.str s.ticker.toStr)
                         :: fs.map (fun f => ("files", FormValue.file f)) }
          , ?_, rfl, rfl⟩, ?_, ?_⟩
  · simp [submitBegin, hf, hne]
  · simp [handleSubmit, submitBegin, hf, hne, submitResume, submitDisabled]
  · simp [handleSubmit, submitBegin, hf, hne, submitResume, submitDisabled]

/-- Witness for C7 on a success outcome. -/
theorem loading_lifecycle_witness :
    (∃ s1 req,
       submitBegin { initState with files := some [⟨"r.pdf"⟩] } =
         .issued s1 req ∧ s1.loading = true ∧ submitDisabled s1 = true) ∧
    (handleSubmit cexPlatform { initState with files := some [⟨"r.pdf"⟩] }
        (.response 200 (.jsonBody (.obj [])))).1.loading = false ∧
    submitDisabled (handleSubmit cexPlatform
        { initState with files := some [⟨"r.pdf"⟩] }
        (.response 200 (.jsonBody (.obj [])))).1 = false :=
  loading_lifecycle cexPlatform { initState with files := some [⟨"r.pdf"⟩] }
    (.response 200 (.jsonBody (.obj []))) [⟨"r.pdf"⟩] rfl (by decide)

/-- C10: a 2xx response with any syntactically valid JSON body becomes
the displayed result unvalidated (and clears the error); only a JSON
syntax failure diverts a 2xx response to the error path. -/
theorem success_accepts_any_json (p : Platform) (s : PageState)
    (fs : List UserFile) (v : Json) (status : Nat)
    (hf : s.files = some fs) (hne : fs.length ≠ 0)
    (h1 : 200 ≤ status) (h2 : status < 300) :
    ((handleSubmit p s (.response status (.jsonBody v))).1.result = some v ∧
     (handleSubmit p s (.response status (.jsonBody v))).1.error = none) ∧
    (∀ t : String,
      (handleSubmit p s (.response status (.textBody t))).1.result = none ∧
      (handleSubmit p s (.response status (.textBody t))).1.error ≠ none) := by
  refine ⟨⟨?_, ?_⟩, fun t => ⟨?_, ?_⟩⟩ <;>
    simp [handleSubmit, submitBegin, hf, hne, submitResume,
      classifyResponse, h1, h2, orUnknown]

/-- Witness for C10: an error-shaped object on a 2xx response is
displayed as the result. -/
theorem success_accepts_any_json_witness :
    ((handleSubmit cexPlatform { initState with files := some [⟨"r.pdf"⟩] }
        (.response 200 (.jsonBody (.obj [("error", .str "boom")])))).1.result =
      some (.obj [("error", .str "boom")]) ∧
     (handleSubmit cexPlatform { initState with files := some [⟨"r.pdf"⟩] }
        (.response 200
          (.jsonBody (.obj [("error", .str "boom")])))).1.error = none) ∧
    (∀ t : String,
      (handleSubmit cexPlatform { initState with files := some [⟨"r.pdf"⟩] }
          (.response 200 (.textBody t))).1.result = none ∧
      (handleSubmit cexPlatform { initState with files := some [⟨"r.pdf"⟩] }
          (.response 200 (.textBody t))).1.error ≠ none) :=
  success_accepts_any_json cexPlatform
    { initState with files := some [⟨"r.pdf"⟩] } [⟨"r.pdf"⟩]
    (.obj [("error", .str "boom")]) 200 rfl (by decide) (by decide) (by decide)

theorem strListAux_map (l : List String) :
    strListAux (l.map Json.str) = some l := by
  induction l with
  | nil => rfl
  | cons a l ih => simp [strListAux, ih]

/-- C8: exporting a held result downloads it under the filename
`<ticker>_analysis_<runId>.json`, with the result serialized as its
JSON value, and re-parsing that value yields the original result. -/
theorem export_filename_and_roundtrip (r : AnalysisResult) :
    handleExportJson (some r) =
      some { filename := r.ticker ++ "_analysis_" ++ r.runId ++ ".json"
           , content := r.toJson } ∧
    AnalysisResult.fromJson r.toJson = some r := by
  refine ⟨rfl, ?_⟩
  simp [AnalysisResult.toJson, AnalysisResult.fromJson, lookupField,
    asStr, asNum, asStrList, strListAux_map, bind]

/-- C9: the presenter shows the ticker, both scores out of 100 and
both justifications, and renders each recommendations section (heading
plus items) exactly when its list is non-empty. -/
theorem render_result_complete (r : AnalysisResult) :
    (renderResult r).heading = "Results for " ++ r.ticker ∧
    (renderResult r).trustHeading =
      "Trust (Transparency): " ++ toString r.trustScore ++ "/100" ∧
    (renderResult r).trustJustification = r.trustJustification ∧
    (renderResult r).growthHeading =
      "Growth (Differentiation): " ++ toString r.growthScore ++ "/100" ∧
    (renderResult r).growthJustification = r.growthJustification ∧
    ((renderResult r).trustRecsSection =
      if r.trustRecommendations = [] then none
      else some ("Transparency Recommendations:", r.trustRecommendations)) ∧
    ((renderResult r).growthRecsSection =
      if r.growthRecommendations = [] then none
      else some ("Differentiation Recommendations:",
                 r.growthRecommendations)) := by
  refine ⟨rfl, rfl, rfl, rfl, rfl, ?_, ?_⟩
  · cases h : r.trustRecommendations <;> simp [renderResult, h]
  · cases h : r.growthRecommendations <;> simp [renderResult, h]

/-- C1 counterexample: after a successful analysis, emptying the file
selection and submitting again sets the validation error while the
previous result stays displayed — result and error coexist. -/
theorem exclusion_counterexample : ¬ resultErrorExclusive cexFinal := by
  simp only [resultErrorExclusive,
    show cexFinal.error = some noFilesMessage from rfl,
    show cexFinal.result = some (Json.obj []) from rfl]
  simp

theorem step_preserves_exclusive (p : Platform) (s : PageState) (e : Event)
    (h : exclusiveUnlessValidation s) :
    exclusiveUnlessValidation (step p s e) := by
  obtain ⟨f, t, l, r, er⟩ := s
  cases e with
  | fileChange fs => exact h
  | pickTicker t2 => exact h
  | submit o =>
      cases f with
      | none => intro _ _; rfl
      | some fs =>
          by_cases hl : fs.length = 0
          · intro _ _
            simp [step, handleSubmit, submitBegin, hl]
          · intro h1 h2
            exfalso
            cases o with
            | networkThrow m =>
                simp [step, handleSubmit, submitBegin, hl, submitResume] at h2
            | response status body =>
                cases hcl : classifyResponse p status body with
                | ok v =>
                    simp [step, handleSubmit, submitBegin, hl,
                      submitResume, hcl] at h1
                | error m =>
                    simp [step, handleSubmit, submitBegin, hl,
                      submitResume, hcl] at h2

theorem run_preserves_exclusive (p : Platform) (evs : List Event)
    (s : PageState) (h : exclusiveUnlessValidation s) :
    exclusiveUnlessValidation (run p s evs) := by
  induction evs generalizing s with
  | nil => exact h
  | cons e evs ih => exact ih (step p s e) (step_preserves_exclusive p s e h)

/-- C1 amended: in every state reachable from the initial state, a
displayed result and a displayed error can only coexist when the error
is the local zero-files validation message; every submission that
passes the precondition leaves them mutually exclusive. -/
theorem exclusion_unless_validation (p : Platform) (evs : List Event)
    (h1 : (run p initState evs).error ≠ none)
    (h2 : (run p initState evs).result ≠ none) :
    (run p initState evs).error = some noFilesMessage :=
  run_preserves_exclusive p evs initState
    (fun he _ => absurd rfl he) h1 h2

/-- Witness for the amended C1 on the counterexample trace. -/
theorem exclusion_unless_validation_witness :
    (run cexPlatform initState cexTrace).error = some noFilesMessage :=
  exclusion_unless_validation cexPlatform cexTrace
    (by simp [show (run cexPlatform initState cexTrace).error =
          some noFilesMessage from rfl])
    (by simp [show (run cexPlatform initState cexTrace).result =
          some (Json.obj []) from rfl])

end TrustGrowth
